import Mathlib

/-!
# Verification of the `webcipher` key-cache and registry core

A shallow embedding, in Lean 4, of the key-cache freshness protocol and
multi-provider registry dispatch of the `webcipher` crate
(`src/key_caches/mod.rs`, `src/key_caches/remote/mod.rs`,
`src/key_caches/remote/key.rs`, `src/registry/mod.rs`), together with
theorems settling the behavioural claims about that core.

Conventions of the embedding:
* Rust `u64` arithmetic is modelled on `Nat` with explicit reduction
  modulo `2 ^ 64` where wrap-around matters.
* Fallible Rust code returning `prelude::Result<T>` is modelled as
  `Except Error T`.
* External collaborators (the HTTP transport, `jsonwebtoken`'s header
  parsing and cryptographic verification, `serde_json` decoding,
  `DecodingKey::from_rsa_components`) are passed in as explicit inputs:
  the embedding takes their already-produced outcomes as parameters,
  exactly where the source consumes those outcomes.
-/

namespace Webcipher

/-!
## Rust string primitives

The string manipulation the core performs (`split`, `trim`, `replace`,
`contains`, `to_lowercase`, `parse::<u64>`) is modelled on `List Char`
with structural recursion, so that concrete evaluations reduce inside the
kernel.  `String` literals stay in the data model (via `.data`).
-/

/-- Rust `str::split(sep)` for a one-character separator: `"a,,b"` splits
into `["a", "", "b"]`, the empty string into `[""]`. -/
def split (sep : Char) : List Char → List (List Char)
  | [] => [[]]
  | c :: rest =>
    if c = sep then [] :: split sep rest
    else
      match split sep rest with
      | [] => [[c]]
      | part :: parts => (c :: part) :: parts

/-- Rust `str::contains(pat)` for a string pattern. -/
def containsSub (pat : List Char) : List Char → Bool
  | [] => pat.isEmpty
  | c :: rest => pat.isPrefixOf (c :: rest) || containsSub pat rest

/-- Rust `str::trim`: strip whitespace from both ends. -/
def trim (s : List Char) : List Char :=
  ((s.dropWhile Char.isWhitespace).reverse.dropWhile Char.isWhitespace).reverse

/-- Worker for `replace`: leftmost-first, non-overlapping replacement of
`pat` by `repl`; the `fuel` argument (instantiated with the string's
length) only makes the recursion structural. -/
def replaceGo (pat repl : List Char) : Nat → List Char → List Char
  | _, [] => []
  | 0, s => s
  | Nat.succ fuel, c :: rest =>
    if !pat.isEmpty && pat.isPrefixOf (c :: rest) then
      repl ++ replaceGo pat repl fuel (List.drop (pat.length - 1) rest)
    else
      c :: replaceGo pat repl fuel rest

/-- Rust `str::replace(pat, repl)`. -/
def replace (s pat repl : List Char) : List Char :=
  replaceGo pat repl s.length s

/-- Rust `str::parse::<u64>().ok()`: an optional leading `+`, then decimal
digits only, rejecting the empty string and values outside `u64`. -/
def parse_u64 (s : List Char) : Option Nat :=
  let digits :=
    match s with
    | '+' :: rest => rest
    | s => s
  if digits.isEmpty || !digits.all Char.isDigit then none
  else
    let n := digits.foldl (fun acc c => acc * 10 + (c.toNat - '0'.toNat)) 0
    if n < 2 ^ 64 then some n else none

/-- Rust `str::to_lowercase` (the core only compares it against the ASCII
constant `"jwt"`). -/
def lowercase (s : List Char) : List Char :=
  s.map Char.toLower

/-! ## `u64` arithmetic -/

/-- One past `u64::MAX`: `u64` values wrap modulo this bound. -/
def U64_SIZE : Nat := 2 ^ 64

/-- `u64` addition as the release build compiles it: wraps modulo
`2 ^ 64` (the debug build panics at exactly the inputs where this
wraps). -/
def u64_add (a b : Nat) : Nat :=
  (a + b) % U64_SIZE

/-- `u64` subtraction as the release build compiles it: wraps modulo
`2 ^ 64` (the debug build panics at exactly the inputs where this
wraps). -/
def u64_sub (a b : Nat) : Nat :=
  (a + (U64_SIZE - b % U64_SIZE)) % U64_SIZE

/-- The error enumeration of `src/error.rs`, including the variants the
living modules reference (`no_cache_control`, `unrecognized_jws_type`,
`unrecognized_tpa`).  Payloads of external error types
(`jsonwebtoken::errors::Error`, `hyper::Error`, ...) are modelled as the
diagnostic `String` they carry. -/
inductive Error where
  | invalid_uri
  | invalid_algorithm
  | unable_to_fetch_keys (message : String)
  | unrecognized_response (message : String)
  | unable_to_verify_token (message : String)
  | unrecognized_jws_type
  | no_kid_present
  | no_corresponding_kid_in_store
  | unable_to_parse_kid_into_uuid (message : String)
  | unable_to_parse_headers
  | no_cache_control
  | unrecognized_tpa
  deriving DecidableEq, Repr

/-- `jsonwebtoken::Algorithm` restricted to the variants the claims need:
the one supported algorithm `RS256` plus representatives of the others. -/
inductive Algorithm where
  | HS256
  | HS384
  | RS256
  | RS384
  | ES256
  deriving DecidableEq, Repr

/-- The fields of `jsonwebtoken::Header` that `key_caches::decrypt`
destructures: `Header { typ, alg, kid, .. }`.  Header parsing itself
(`decode_header`) is the external delegate's job; the embedding works on
the parsed header. -/
structure Header where
  typ : Option String
  alg : Algorithm
  kid : Option String
  deriving DecidableEq, Repr

/-- The slice of `jsonwebtoken::Validation` the core manipulates: the
algorithm the policy is pinned to (`Validation::new(alg)`). -/
structure Validation where
  alg : Algorithm
  deriving DecidableEq, Repr

/-- `Validation::new` pins the validation policy to one algorithm. -/
def Validation.new (alg : Algorithm) : Validation :=
  { alg := alg }

/-- `key_caches::decrypt` (src/key_caches/mod.rs, lines 32-67): the token
preflight and verification pipeline.

* `selector` is the call-back `F: Fn(&String) -> Result<&DecodingKey>`.
* `decode` stands for `jsonwebtoken::decode(&token, key, &validation)`;
  its failure is an external `jsonwebtoken::errors::Error` (modelled as
  the diagnostic string), converted by the `From` impl in `src/error.rs`
  into `Error::unable_to_verify_token`.

The source sequence is: match on `alg` (anything but `RS256` errors with
`invalid_algorithm`), default the validation, check
`typ.map(to_lowercase)` against `"jwt"` (`unrecognized_jws_type`
otherwise), require `kid` (`no_kid_present` otherwise), run the selector,
then decode. -/
def decrypt {DecodingKey TokenData : Type}
    (header : Header)
    (selector : String → Except Error DecodingKey)
    (validation : Option Validation)
    (decode : DecodingKey → Validation → Except String TokenData) :
    Except Error TokenData :=
  match header.alg with
  | Algorithm.RS256 =>
    let validation := validation.getD (Validation.new header.alg)
    match header.typ.map (fun typ => lowercase typ.data) with
    | some typ =>
      if typ = "jwt".data then
        match header.kid with
        | some kid =>
          match selector kid with
          | Except.ok decoding_key =>
            match decode decoding_key validation with
            | Except.ok claim => Except.ok claim
            | Except.error e => Except.error (Error.unable_to_verify_token e)
          | Except.error e => Except.error e
        | none => Except.error Error.no_kid_present
      else Except.error Error.unrecognized_jws_type
    | none => Except.error Error.unrecognized_jws_type
  | _ => Except.error Error.invalid_algorithm

/-! ## The `JWK` data model (src/key_caches/remote/key.rs) -/

/-- The `kty` enumeration of key families. -/
inductive KeyType where
  | RSA
  | EC
  deriving DecidableEq, Repr

/-- The `use` enumeration: encryption or signature. -/
inductive Use where
  | enc
  | sig
  deriving DecidableEq, Repr

/-- The (incomplete, fine-tuned) `JWK` representation `Key`. -/
structure Key where
  e : String
  kty : KeyType
  alg : Option Algorithm
  n : String
  kid : String
  use : Use
  deriving DecidableEq, Repr

/-- `jsonwebtoken::DecodingKey` — opaque verification material the core
never inspects; modelled as the RSA components
`DecodingKey::from_rsa_components(n, e)` succeeded on. -/
structure DecodingKey where
  n : String
  e : String
  deriving DecidableEq, Repr

/-- `type Cache = BTreeMap<String, (Key, DecodingKey)>`, modelled as an
association list keyed by `kid` (no claim depends on its ordering). -/
abbrev Cache : Type :=
  List (String × (Key × DecodingKey))

/-! ## The provider cache (src/key_caches/remote/mod.rs) -/

/-- `RemoteCache`: the fetch `uri` (`http::Uri`, modelled as its string),
the `kid -> (Key, DecodingKey)` map and the optional expiry time in Unix
seconds (`Option<u64>`). -/
structure RemoteCache where
  uri : String
  keys : Cache
  expiry_time : Option Nat
  deriving DecidableEq, Repr

/-- The `#[derivative(PartialEq, Eq)]` instance of `RemoteCache`: `keys`
and `expiry_time` are marked `PartialEq = "ignore"`, so the comparison
reads only `uri`. -/
def RemoteCache.eq (a b : RemoteCache) : Bool :=
  a.uri == b.uri

/-- The `#[derivative(Hash)]` instance of `RemoteCache`: `keys` and
`expiry_time` are marked `Hash = "ignore"`, so only `uri` is fed to the
hasher (taken here as an arbitrary function of the fed field). -/
def RemoteCache.hashWith (hasher : String → Nat) (cache : RemoteCache) : Nat :=
  hasher cache.uri

/-- `RemoteCache::is_cache_fresh` (lines 274-288): `now` stands for
`Utc::now().timestamp() as u64`, read inside the source; the comparison is
`now.cmp(&expiry_time)` with only `Ordering::Less` counting as fresh, and
a `None` expiry is never fresh. -/
def RemoteCache.is_cache_fresh (cache : RemoteCache) (now : Nat) : Bool :=
  match cache.expiry_time with
  | some expiry_time =>
    match compare now expiry_time with
    | Ordering.lt => true
    | Ordering.eq => false
    | Ordering.gt => false
  | none => false

/-! ## `fetch` (src/key_caches/remote/mod.rs, lines 342-419)

`fetch` interleaves external steps (HTTP GET, header `to_str`,
`serde_json` decoding, `DecodingKey::from_rsa_components`) with the core
logic.  The embedding takes the external outcomes as an `HttpResponse`
value and a `from_rsa_components` function, and keeps the core's own
control flow: reject a missing or unreadable `cache-control` header,
parse the max-age directives, reject a body without a decodable `keys`
array, filter the descriptors. -/

/-- Outcome of `response.headers().get("cache-control")` followed by
`to_str()`. -/
inductive CacheControlHeader where
  | missing
  | unreadable
  | value (s : String)
  deriving DecidableEq, Repr

/-- Outcome of the `serde_json` steps on the response body:
`from_slice::<Value>` (not JSON at all), `body.get("keys")` (field
missing), `from_value::<Vec<Value>>` (field not an array), or the element
list where each element carries its `from_value::<Key>(value).ok()`
result. -/
inductive Body where
  | not_json (message : String)
  | no_keys_field
  | keys_not_array (message : String)
  | keys (descriptors : List (Option Key))
  deriving DecidableEq, Repr

/-- The transport response, reduced to the two pieces `fetch` consumes. -/
structure HttpResponse where
  cache_control : CacheControlHeader
  body : Body
  deriving DecidableEq, Repr

/-- The max-age scan of `fetch`: split the header value on commas, keep
the pieces containing `"max-age="`, and for each, trim it, delete the
`"max-age="` pattern and parse the remainder as `u64`. -/
def max_ages_of (header_value : String) : List Nat :=
  (split ',' header_value.data).filterMap (fun value =>
    if containsSub "max-age=".data value then
      parse_u64 (replace (trim value) "max-age=".data [])
    else none)

/-- The per-descriptor filter of `fetch`: skip descriptors that failed
structural decoding, whose `kty` is not `RSA`, whose `alg` is not
`Some(RS256)`, whose `use` is not `sig`, or whose components
`from_rsa_components` rejects; otherwise map `kid` to the key and its
prepared material. -/
def keep_key (from_rsa_components : String → String → Option DecodingKey)
    (descriptor : Option Key) : Option (String × (Key × DecodingKey)) :=
  descriptor.bind (fun key =>
    match key.kty with
    | KeyType.RSA =>
      match key.alg with
      | some Algorithm.RS256 =>
        match key.use with
        | Use.sig =>
          (from_rsa_components key.n key.e).map
            (fun decoding_key => (key.kid, (key, decoding_key)))
        | Use.enc => none
      | _ => none
    | _ => none)

/-- `fetch`: the expiry time is `now + max_age - 3600` in `u64`
arithmetic, using the first parsed max-age directive if any; the key map
is the filtered descriptor list. -/
def fetch (now : Nat)
    (from_rsa_components : String → String → Option DecodingKey)
    (response : HttpResponse) : Except Error (Cache × Option Nat) :=
  match response.cache_control with
  | CacheControlHeader.missing => Except.error Error.no_cache_control
  | CacheControlHeader.unreadable => Except.error Error.unable_to_parse_headers
  | CacheControlHeader.value s =>
    let max_ages := max_ages_of s
    let expiry_time := max_ages.head?.map (fun max_age =>
      u64_sub (u64_add now max_age) 3600)
    match response.body with
    | Body.not_json m => Except.error (Error.unrecognized_response m)
    | Body.no_keys_field => Except.error (Error.unable_to_fetch_keys
        "No \x27keys\x27 array contained in the returned object.")
    | Body.keys_not_array m => Except.error (Error.unrecognized_response m)
    | Body.keys descriptors =>
      Except.ok (descriptors.filterMap (keep_key from_rsa_components), expiry_time)

/-- `RemoteCache::refresh` (lines 179-187) in state-passing form:
`fetch_result` is the outcome of `fetch(uri.clone()).await`; the `?` on it
returns before either field is assigned, and on success both `keys` and
`expiry_time` are written. -/
def RemoteCache.refresh (cache : RemoteCache)
    (fetch_result : Except Error (Cache × Option Nat)) :
    RemoteCache × Except Error Unit :=
  match fetch_result with
  | Except.error e => (cache, Except.error e)
  | Except.ok (keys, expiry_time) =>
    ({ cache with keys := keys, expiry_time := expiry_time }, Except.ok ())

/-- `RemoteCache::decrypt_unchecked` (lines 208-225): run the shared
pipeline with the selector that looks the `kid` up in this cache's key
map (`no_corresponding_kid_in_store` when absent) and the default
validation. -/
def RemoteCache.decrypt_unchecked {TokenData : Type} (cache : RemoteCache)
    (header : Header)
    (decode : DecodingKey → Validation → Except String TokenData) :
    Except Error TokenData :=
  decrypt header
    (fun kid =>
      match cache.keys.find? (fun entry => entry.1 == kid) with
      | some entry => Except.ok entry.2.2
      | none => Except.error Error.no_corresponding_kid_in_store)
    none decode

/-! ## The registry (src/registry/mod.rs) -/

/-- `KeyRegistry<Tpa>`: the `BTreeMap<Tpa, RemoteCache>` of provider
caches, modelled as an association list with unique keys. -/
structure KeyRegistry (Tpa : Type) where
  remote_caches : List (Tpa × RemoteCache)

/-- Modelled from the spec: `RemoteCache::decrypt(token, auto_refresh)` is
called at src/registry/mod.rs line 144 but defined in no file of the
repository.  Spec section 4.5, steps 2-4: when `auto_refresh` is set and
the cache reports stale, one `refresh` runs first and any refresh failure
is propagated; otherwise verification proceeds against the current cached
keys; finally the pipeline result is returned unchanged.  The last
component counts the fetch (network) operations performed. -/
def RemoteCache.decrypt_with_refresh {TokenData : Type} (cache : RemoteCache)
    (now : Nat)
    (fetch_result : Except Error (Cache × Option Nat))
    (header : Header)
    (decode : DecodingKey → Validation → Except String TokenData)
    (auto_refresh : Bool) :
    RemoteCache × Except Error TokenData × Nat :=
  if auto_refresh && !(cache.is_cache_fresh now) then
    match cache.refresh fetch_result with
    | (cache, Except.error e) => (cache, Except.error e, 1)
    | (cache, Except.ok _) => (cache, cache.decrypt_unchecked header decode, 1)
  else
    (cache, cache.decrypt_unchecked header decode, 0)

/-- `KeyRegistry::decrypt` (src/registry/mod.rs, lines 130-145): look the
`tpa` up in `remote_caches` (`unrecognized_tpa` when absent, before
anything else runs) and delegate to the selected cache's token decryption,
writing the mutated cache back in place.  The last component counts the
fetch (network) operations performed. -/
def KeyRegistry.decrypt {Tpa TokenData : Type} [DecidableEq Tpa]
    (registry : KeyRegistry Tpa) (tpa : Tpa) (now : Nat)
    (fetch_result : Except Error (Cache × Option Nat))
    (header : Header)
    (decode : DecodingKey → Validation → Except String TokenData)
    (auto_refresh : Bool) :
    KeyRegistry Tpa × Except Error TokenData × Nat :=
  match registry.remote_caches.find? (fun entry => decide (entry.1 = tpa)) with
  | none => (registry, Except.error Error.unrecognized_tpa, 0)
  | some entry =>
    let (cache, result, fetches) :=
      entry.2.decrypt_with_refresh now fetch_result header decode auto_refresh
    (⟨registry.remote_caches.map (fun p => if p.1 = tpa then (p.1, cache) else p)⟩,
      result, fetches)

/-!
## Theorems
-/

/-- C2: `is_cache_fresh` returns true iff the expiry instant is
`Some expiry` and `now` is strictly below it; at or past the expiry, or
with no expiry recorded, the cache is stale. -/
theorem is_cache_fresh_iff (cache : RemoteCache) (now : Nat) :
    cache.is_cache_fresh now = true ↔
      ∃ expiry, cache.expiry_time = some expiry ∧ now < expiry := by
  unfold RemoteCache.is_cache_fresh
  cases h : cache.expiry_time with
  | none => simp
  | some expiry =>
    simp only [h, Option.some.injEq]
    cases hc : compare now expiry with
    | lt =>
      rw [Nat.compare_eq_lt] at hc
      simp only [true_iff]
      exact ⟨expiry, rfl, hc⟩
    | eq =>
      rw [Nat.compare_eq_eq] at hc
      constructor
      · intro hfalse
        simp at hfalse
      · rintro ⟨e, he, hlt⟩
        cases he
        omega
    | gt =>
      rw [Nat.compare_eq_gt] at hc
      constructor
      · intro hfalse
        simp at hfalse
      · rintro ⟨e, he, hlt⟩
        cases he
        omega

/-- C3: `refresh` leaves the cache untouched whenever the fetch failed,
and on a successful fetch replaces `keys` and `expiry_time` together (the
`uri` staying as it was): never a partial swap. -/
theorem refresh_atomic (cache : RemoteCache)
    (fetch_result : Except Error (Cache × Option Nat)) :
    (∀ e, fetch_result = Except.error e →
      cache.refresh fetch_result = (cache, Except.error e)) ∧
    (∀ keys expiry_time, fetch_result = Except.ok (keys, expiry_time) →
      cache.refresh fetch_result =
        ({ uri := cache.uri, keys := keys, expiry_time := expiry_time },
          Except.ok ())) := by
  constructor
  · intro e he
    subst he
    rfl
  · intro keys expiry_time hok
    subst hok
    rfl

/-- C10: the derived equality and hash of `RemoteCache` read only `uri`:
equality holds iff the `uri`s agree, so caches sharing a `uri` but
differing in `keys` or `expiry_time` compare equal and hash identically,
and equal `uri`s always hash alike. -/
theorem remote_cache_identity_by_uri :
    (∀ a b : RemoteCache, RemoteCache.eq a b = true ↔ a.uri = b.uri) ∧
    (∀ (uri : String) (keys₁ keys₂ : Cache) (e₁ e₂ : Option Nat)
        (hasher : String → Nat),
      RemoteCache.eq ⟨uri, keys₁, e₁⟩ ⟨uri, keys₂, e₂⟩ = true ∧
        RemoteCache.hashWith hasher ⟨uri, keys₁, e₁⟩ =
          RemoteCache.hashWith hasher ⟨uri, keys₂, e₂⟩) ∧
    (∀ (hasher : String → Nat) (a b : RemoteCache),
      a.uri = b.uri →
        RemoteCache.hashWith hasher a = RemoteCache.hashWith hasher b) := by
  refine ⟨fun a b => ?_, fun uri k₁ k₂ e₁ e₂ hasher => ⟨?_, rfl⟩, fun hasher a b h => ?_⟩
  · simp [RemoteCache.eq]
  · simp [RemoteCache.eq]
  · simp [RemoteCache.hashWith, h]

/-- C1: the pipeline's structural checks run in the fixed order
algorithm, type, key-id presence — a non-`RS256` algorithm yields
`invalid_algorithm` (never `no_kid_present`, whatever the rest of the
header holds), the type check fires only once the algorithm check passed,
the key-id check only after both — and once all three pass, the result is
the key lookup first, its prepared key handed to the cryptographic
delegate only when the lookup succeeded. -/
theorem decrypt_structural_checks_ordered {DecodingKey TokenData : Type}
    (header : Header) (selector : String → Except Error DecodingKey)
    (validation : Option Validation)
    (decode : DecodingKey → Validation → Except String TokenData) :
    (header.alg ≠ Algorithm.RS256 →
      decrypt header selector validation decode =
          Except.error Error.invalid_algorithm ∧
        decrypt header selector validation decode ≠
          Except.error Error.no_kid_present) ∧
    (header.alg = Algorithm.RS256 →
      header.typ.map (fun typ => lowercase typ.data) ≠ some "jwt".data →
      decrypt header selector validation decode =
        Except.error Error.unrecognized_jws_type) ∧
    (header.alg = Algorithm.RS256 →
      header.typ.map (fun typ => lowercase typ.data) = some "jwt".data →
      header.kid = none →
      decrypt header selector validation decode =
        Except.error Error.no_kid_present) ∧
    (∀ kid, header.alg = Algorithm.RS256 →
      header.typ.map (fun typ => lowercase typ.data) = some "jwt".data →
      header.kid = some kid →
      decrypt header selector validation decode =
        match selector kid with
        | Except.ok decoding_key =>
          match decode decoding_key (validation.getD (Validation.new Algorithm.RS256)) with
          | Except.ok claim => Except.ok claim
          | Except.error e => Except.error (Error.unable_to_verify_token e)
        | Except.error e => Except.error e) := by
  obtain ⟨typ, alg, kid⟩ := header
  refine ⟨?_, ?_, ?_, ?_⟩
  · intro halg
    cases alg
    case RS256 => exact absurd rfl halg
    all_goals exact ⟨rfl, by simp [decrypt]⟩
  · intro halg hty
    cases halg
    cases htyp : typ with
    | none => rfl
    | some t =>
      subst htyp
      simp only [Option.map_some', ne_eq, Option.some.injEq] at hty
      simp only [decrypt, Option.map_some']
      rw [if_neg hty]
  · intro halg hty hkid
    cases halg
    cases htyp : typ with
    | none =>
      subst htyp
      simp at hty
    | some t =>
      subst htyp
      simp only [Option.map_some', Option.some.injEq] at hty
      subst hkid
      simp only [decrypt, Option.map_some']
      rw [if_pos hty]
  · intro k halg hty hkid
    cases halg
    cases htyp : typ with
    | none =>
      subst htyp
      simp at hty
    | some t =>
      subst htyp
      simp only [Option.map_some', Option.some.injEq] at hty
      subst hkid
      simp only [decrypt, Option.map_some']
      rw [if_pos hty]

/-- C8 counterexample: a token whose header carries `alg = RS256`, a
`kid`, but no `typ` at all is rejected with `unrecognized_jws_type`,
although the claim states a header omitting `typ` never receives this
error. -/
theorem missing_typ_errors_cex :
    RemoteCache.decrypt_unchecked ⟨"https://example.com/certs", [], none⟩
        ⟨none, Algorithm.RS256, some "kid1"⟩
        (fun _ _ => Except.ok (0 : Nat)) =
      Except.error Error.unrecognized_jws_type := rfl

/-- C8 (amended): for a token that passed the algorithm check, the
pipeline returns `unrecognized_jws_type` exactly when the lowercased
`typ` is not `"jwt"` — including when `typ` is absent altogether. -/
theorem unrecognized_typ_iff {TokenData : Type} (cache : RemoteCache)
    (header : Header)
    (decode : DecodingKey → Validation → Except String TokenData)
    (halg : header.alg = Algorithm.RS256) :
    cache.decrypt_unchecked header decode =
        Except.error Error.unrecognized_jws_type ↔
      header.typ.map (fun typ => lowercase typ.data) ≠ some "jwt".data := by
  obtain ⟨typ, alg, kid⟩ := header
  cases halg
  unfold RemoteCache.decrypt_unchecked
  cases htyp : typ with
  | none =>
    simp only [decrypt, Option.map_none']
    simp
  | some t =>
    simp only [decrypt, Option.map_some', ne_eq, Option.some.injEq]
    by_cases hjwt : lowercase t.data = "jwt".data
    · rw [if_pos hjwt]
      simp only [hjwt, not_true_eq_false, iff_false]
      cases kid with
      | none => simp
      | some k =>
        cases hfind : List.find? (fun entry => entry.1 == k) cache.keys with
        | none => simp [hfind]
        | some entry =>
          simp only [hfind]
          cases hdec : decode entry.2.2 (Validation.new Algorithm.RS256) with
          | ok claim => simp [hdec]
          | error m => simp [hdec]
    · rw [if_neg hjwt]
      simp [hjwt]

/-- C8 witness: a concrete `typ = "text"` header is rejected with
`unrecognized_jws_type`, by the amended equivalence. -/
theorem unrecognized_typ_iff_witness :
    RemoteCache.decrypt_unchecked ⟨"https://example.com/certs", [], none⟩
        ⟨some "text", Algorithm.RS256, some "kid1"⟩
        (fun _ _ => Except.ok (0 : Nat)) =
      Except.error Error.unrecognized_jws_type :=
  (unrecognized_typ_iff ⟨"https://example.com/certs", [], none⟩
      ⟨some "text", Algorithm.RS256, some "kid1"⟩
      (fun _ _ => Except.ok (0 : Nat)) rfl).mpr (by decide)

/-- C4: the key filter drops exactly the descriptors that failed
structural decoding, are not RSA-family, do not declare `RS256`, are not
signature-use, or whose modulus/exponent yield no verification material;
every cache entry a successful fetch produces comes from a descriptor
passing all the checks; and a fetch whose descriptors are all excluded
still succeeds, with an empty usable set. -/
theorem filter_excludes_unusable
    (from_rsa_components : String → String → Option DecodingKey) :
    (keep_key from_rsa_components none = none) ∧
    (∀ key : Key,
      keep_key from_rsa_components (some key) = none ↔
        key.kty ≠ KeyType.RSA ∨ key.alg ≠ some Algorithm.RS256 ∨
          key.use ≠ Use.sig ∨ from_rsa_components key.n key.e = none) ∧
    (∀ now s descriptors cache expiry_time,
      fetch now from_rsa_components
          ⟨CacheControlHeader.value s, Body.keys descriptors⟩ =
        Except.ok (cache, expiry_time) →
      ∀ entry ∈ cache, ∃ d ∈ descriptors,
        keep_key from_rsa_components d = some entry) ∧
    (∀ now s descriptors,
      (∀ d ∈ descriptors, keep_key from_rsa_components d = none) →
      ∃ expiry_time,
        fetch now from_rsa_components
            ⟨CacheControlHeader.value s, Body.keys descriptors⟩ =
          Except.ok ([], expiry_time)) := by
  refine ⟨rfl, ?_, ?_, ?_⟩
  · intro key
    obtain ⟨e, kty, alg, n, kid, u⟩ := key
    cases kty with
    | EC => simp [keep_key]
    | RSA =>
      cases alg with
      | none => simp [keep_key]
      | some a =>
        cases a <;> try simp [keep_key]
        cases u with
        | enc => simp [keep_key]
        | sig =>
          cases hf : from_rsa_components n e with
          | none => simp [keep_key, hf]
          | some dk => simp [keep_key, hf]
  · intro now s descriptors cache expiry_time hfetch entry hentry
    simp only [fetch, Except.ok.injEq, Prod.mk.injEq] at hfetch
    obtain ⟨hcache, -⟩ := hfetch
    subst hcache
    exact List.mem_filterMap.mp hentry
  · intro now s descriptors hexcluded
    refine ⟨(max_ages_of s).head?.map
      (fun max_age => u64_sub (u64_add now max_age) 3600), ?_⟩
    simp only [fetch, Except.ok.injEq, Prod.mk.injEq]
    exact ⟨List.filterMap_eq_nil_iff.mpr hexcluded, trivial⟩

/-- C5 counterexample: a response that carries no `cache-control` header
at all, even with a perfectly well-formed body, makes the whole fetch fail
with `no_cache_control` — the claim states such a fetch still succeeds
with an unknown-freshness cache. -/
theorem missing_cache_control_fails_cex :
    fetch 1700000000 (fun n e => some ⟨n, e⟩)
        ⟨CacheControlHeader.missing, Body.keys []⟩ =
      Except.error Error.no_cache_control := rfl

/-- C5 (amended): when the `cache-control` header is present and readable
but contains no parseable max-age directive, the fetch still succeeds,
populating the key set with the expiry instant `None`; a response missing
the header entirely fails with `no_cache_control`, and one whose header
value is unreadable fails with `unable_to_parse_headers`. -/
theorem fetch_freshness_unknown_policy :
    (∀ now from_rsa_components s descriptors, max_ages_of s = [] →
      fetch now from_rsa_components
          ⟨CacheControlHeader.value s, Body.keys descriptors⟩ =
        Except.ok (descriptors.filterMap (keep_key from_rsa_components), none)) ∧
    (∀ now from_rsa_components body,
      fetch now from_rsa_components ⟨CacheControlHeader.missing, body⟩ =
        Except.error Error.no_cache_control) ∧
    (∀ now from_rsa_components body,
      fetch now from_rsa_components ⟨CacheControlHeader.unreadable, body⟩ =
        Except.error Error.unable_to_parse_headers) := by
  refine ⟨?_, fun _ _ _ => rfl, fun _ _ _ => rfl⟩
  intro now from_rsa_components s descriptors hempty
  simp [fetch, hempty]

/-- The expiry computation of `fetch` agrees with plain `Nat` arithmetic
whenever `now + max_age` neither underflows past the one-hour margin nor
overflows `u64`. -/
theorem u64_expiry_no_underflow (now max_age : Nat)
    (hlow : 3600 ≤ now + max_age) (hhigh : now + max_age < 2 ^ 64) :
    u64_sub (u64_add now max_age) 3600 = now + max_age - 3600 := by
  unfold u64_sub u64_add U64_SIZE
  norm_num
  omega

/-- C6: a fetch whose `cache-control` value parses to at least one
max-age directive records the expiry `now + max_age - 3600`, taking
`max_age` from the first directive and ignoring the later ones (stated on
the inputs where the `u64` arithmetic neither underflows past the
one-hour margin nor overflows). -/
theorem expiry_from_first_max_age (now : Nat)
    (from_rsa_components : String → String → Option DecodingKey)
    (s : String) (descriptors : List (Option Key))
    (max_age : Nat) (rest : List Nat)
    (hparse : max_ages_of s = max_age :: rest)
    (hlow : 3600 ≤ now + max_age) (hhigh : now + max_age < 2 ^ 64) :
    fetch now from_rsa_components
        ⟨CacheControlHeader.value s, Body.keys descriptors⟩ =
      Except.ok (descriptors.filterMap (keep_key from_rsa_components),
        some (now + max_age - 3600)) := by
  simp [fetch, hparse, u64_expiry_no_underflow now max_age hlow hhigh]

/-- C6 witness: at `now = 1700000000` against
`"public, max-age=7200, max-age=99"`, the recorded expiry uses the first
directive: `1700000000 + 7200 - 3600`. -/
theorem expiry_from_first_max_age_witness :
    fetch 1700000000 (fun n e => some ⟨n, e⟩)
        ⟨CacheControlHeader.value "public, max-age=7200, max-age=99",
          Body.keys []⟩ =
      Except.ok ([], some (1700000000 + 7200 - 3600)) :=
  expiry_from_first_max_age 1700000000 (fun n e => some ⟨n, e⟩)
    "public, max-age=7200, max-age=99" [] 7200 [99]
    (by decide) (by decide) (by decide)

/-- C7 (code-bug evidence): with the clock at the Unix epoch and a
response stating `max-age=0`, the expiry computation
`now + max_age - one_hour` underflows and wraps to `2 ^ 64 - 3600`
(release semantics; the debug build panics at the same input) — a
far-future instant the freshness check then accepts as fresh — instead of
saturating to an already-expired instant as the claim requires. -/
theorem expiry_underflow_wraps :
    fetch 0 (fun n e => some ⟨n, e⟩)
        ⟨CacheControlHeader.value "max-age=0", Body.keys []⟩ =
      Except.ok ([], some (U64_SIZE - 3600)) ∧
    U64_SIZE - 3600 ≠ 0 ∧
    RemoteCache.is_cache_fresh
        ⟨"https://example.com/certs", [], some (U64_SIZE - 3600)⟩ 0 = true := by
  refine ⟨rfl, by decide, by decide⟩

/-- C9: registry dispatch against a provider identity absent from the
registry map fails with `unrecognized_tpa`, the registry unchanged and
zero fetch (network) operations performed — the lookup short-circuits
before any refresh. -/
theorem registry_unknown_tpa_no_fetch {Tpa TokenData : Type} [DecidableEq Tpa]
    (registry : KeyRegistry Tpa) (tpa : Tpa) (now : Nat)
    (fetch_result : Except Error (Cache × Option Nat)) (header : Header)
    (decode : DecodingKey → Validation → Except String TokenData)
    (auto_refresh : Bool)
    (habsent : ∀ entry ∈ registry.remote_caches, entry.1 ≠ tpa) :
    registry.decrypt tpa now fetch_result header decode auto_refresh =
      (registry, Except.error Error.unrecognized_tpa, 0) := by
  unfold KeyRegistry.decrypt
  have hfind :
      registry.remote_caches.find? (fun entry => decide (entry.1 = tpa)) = none := by
    rw [List.find?_eq_none]
    intro x hx
    simpa using habsent x hx
  rw [hfind]

/-- C9 witness: an empty registry rejects any provider identity with
`unrecognized_tpa` and performs no fetch. -/
theorem registry_unknown_tpa_no_fetch_witness :
    KeyRegistry.decrypt (⟨[]⟩ : KeyRegistry Nat) 3 1700000000
        (Except.ok ([], none)) ⟨some "JWT", Algorithm.RS256, some "kid1"⟩
        (fun _ _ => Except.ok (0 : Nat)) true =
      (⟨[]⟩, Except.error Error.unrecognized_tpa, 0) :=
  registry_unknown_tpa_no_fetch (⟨[]⟩ : KeyRegistry Nat) 3 1700000000
    (Except.ok ([], none)) ⟨some "JWT", Algorithm.RS256, some "kid1"⟩
    (fun _ _ => Except.ok (0 : Nat)) true (by simp)

end Webcipher
